import Mathlib

/-!
A shallow embedding of the clover3 SOCKS5 tunnelling proxy (Go) in Lean 4.
Byte streams are lists of `Nat` (each element a byte value), reads consume a
prefix of the list, and fallible Go functions return `Except GoError`.
The embedded functions mirror `socks5.go`, `proxy.go` and `fan/fan.go`.
-/

namespace Clover

/-- Go error values that the modelled code distinguishes: `io.EOF`,
`io.ErrUnexpectedEOF`, and any other error (carrying its message). -/
inductive GoError where
  | eof
  | unexpectedEOF
  | other (msg : String)
deriving DecidableEq, Repr

/-- Models `conn.Read(singleByte)` on a stream: one byte or `io.EOF` when the
stream is exhausted. -/
def readByte (input : List Nat) : Except GoError (Nat × List Nat) :=
  match input with
  | [] => .error .eof
  | b :: rest => .ok (b, rest)

/-- Models `io.ReadFull(r, make([]byte, n))`: returns the `n` bytes read and
the remaining stream; `io.EOF` if nothing could be read, and
`io.ErrUnexpectedEOF` on a partial read. -/
def readFull (n : Nat) (input : List Nat) : Except GoError (List Nat × List Nat) :=
  if n ≤ input.length then .ok (input.take n, input.drop n)
  else if input.length = 0 then .error .eof
  else .error .unexpectedEOF

/-- Models Go `net` package `isZeros`: every byte of the slice is zero. -/
def isZeros (l : List Nat) : Bool := l.all (fun b => b == 0)

/-- Models `net.IP.To4`: a 4-byte IP is returned as is; a 16-byte IP is
shortened to its last 4 bytes (Go's `ip[12:16]`, here `ip.drop 12` under the
length-16 guard) when it is an IPv4-in-IPv6 address; otherwise `none`. -/
def to4 (ip : List Nat) : Option (List Nat) :=
  if ip.length = 4 then some ip
  else if ip.length = 16 ∧ isZeros (ip.take 10) = true ∧
          ip.getD 10 0 = 255 ∧ ip.getD 11 0 = 255 then
    some (ip.drop 12)
  else none

/-- The 12-byte IPv4-in-IPv6 leading bytes used by Go's `net.IPv4`. -/
def v4InV6Head : List Nat := [0, 0, 0, 0, 0, 0, 0, 0, 0, 0, 255, 255]

/-- Models `net.IP.To16`. -/
def to16 (ip : List Nat) : Option (List Nat) :=
  if ip.length = 4 then some (v4InV6Head ++ ip)
  else if ip.length = 16 then some ip
  else none

/-- Models Go's dotted-decimal rendering of a 4-byte IP (`ubtoa` loop in
`net.IP.String`). -/
def ipDotted (p4 : List Nat) : String :=
  Nat.repr (p4.getD 0 0) ++ "." ++ Nat.repr (p4.getD 1 0) ++ "." ++
  Nat.repr (p4.getD 2 0) ++ "." ++ Nat.repr (p4.getD 3 0)

/-- The 16-bit groups of a 16-byte IPv6 address
(`(uint32(ip[i])<<8)|uint32(ip[i+1])`). -/
def ipGroups : List Nat → List Nat
  | a :: b :: rest => (a * 256 + b) :: ipGroups rest
  | _ => []

/-- Length of the run of zero groups at the head of the list. -/
def countZeroGroups : List Nat → Nat
  | [] => 0
  | g :: rest => if g = 0 then countZeroGroups rest + 1 else 0

/-- Models the zero-run search of `net.IP.String`: scans the groups from the
left keeping the first strictly-longest run of zero groups `[e0, e1)`; after
recording a run ending at `j` the scan resumes at `j + 1`. -/
def bestZeroRun : List Nat → Nat → Option (Nat × Nat) → Option (Nat × Nat)
  | [], _, best => best
  | g :: rest, i, best =>
    let run := countZeroGroups (g :: rest)
    let bestLen := match best with | none => 0 | some (a, b) => b - a
    if 0 < run ∧ bestLen < run then
      bestZeroRun (List.drop (run + 1) (g :: rest)) (i + run + 1) (some (i, i + run))
    else
      bestZeroRun rest (i + 1) best
termination_by l _ _ => l.length
decreasing_by
  · simp only [List.length_drop, List.length_cons]
    omega
  · simp only [List.length_cons]
    omega

/-- Models the `e1 - e0 <= 2` (bytes, so one group) trimming in
`net.IP.String`: `::` must not shorten a single zero group. -/
def zeroRunTrim : Option (Nat × Nat) → Option (Nat × Nat)
  | some (e0, e1) => if e1 - e0 ≤ 1 then none else some (e0, e1)
  | none => none

/-- Models `appendHex`: lowercase hexadecimal without leading zeros
(`0` for a zero group). -/
def hexGroup (g : Nat) : String := String.mk (Nat.toDigits 16 g)

/-- Models the rendering loop of `net.IP.String` over the 8 groups with the
chosen `::` compression range; `fuel` bounds the recursion (8 at top level). -/
def ipv6Render (gs : List Nat) (best : Option (Nat × Nat)) : Nat → Nat → String
  | _, 0 => ""
  | i, fuel + 1 =>
    if 8 ≤ i then "" else
    match best with
    | some (e0, e1) =>
      if i = e0 then
        "::" ++ (if 8 ≤ e1 then "" else hexGroup (gs.getD e1 0) ++ ipv6Render gs best (e1 + 1) fuel)
      else
        (if 0 < i then ":" else "") ++ hexGroup (gs.getD i 0) ++ ipv6Render gs best (i + 1) fuel
    | none =>
      (if 0 < i then ":" else "") ++ hexGroup (gs.getD i 0) ++ ipv6Render gs best (i + 1) fuel

/-- Two hexadecimal digits of one byte (`hexString` helper in Go `net`). -/
def byteHex (b : Nat) : String := String.mk [Nat.digitChar (b / 16), Nat.digitChar (b % 16)]

/-- Models `hexString`: each byte as two hexadecimal digits. -/
def bytesHex : List Nat → String
  | [] => ""
  | b :: rest => byteHex b ++ bytesHex rest

/-- Models `net.IP.String`: `<nil>` for an empty IP, dotted decimal when
`To4` succeeds, `?`-prefixed hex for other lengths, and RFC 5952 style
compression for 16-byte IPv6 addresses. -/
def ipString (ip : List Nat) : String :=
  if ip.length = 0 then "<nil>"
  else
    match to4 ip with
    | some p4 => ipDotted p4
    | none =>
      if ip.length ≠ 16 then "?" ++ bytesHex ip
      else ipv6Render (ipGroups ip) (zeroRunTrim (bestZeroRun (ipGroups ip) 0 none)) 0 8

/-- Models Go `string(bytes)` for the hostname bytes (byte-for-byte). -/
def goStringOfBytes (l : List Nat) : String := String.mk (l.map Char.ofNat)

/-- Models `readProxyAddress` of `socks5.go`: reads the ATYP byte, an
ATYP-dependent host, then two big-endian port bytes, and renders
`host ++ ":" ++ port`. An unknown ATYP leaves the host empty. -/
def readProxyAddress (input : List Nat) : Except GoError (String × List Nat) :=
  match readByte input with
  | .error e => .error e
  | .ok (atyp, r0) =>
    let step1 : Except GoError (String × List Nat) :=
      if atyp = 1 then
        match readFull 4 r0 with
        | .error e => .error e
        | .ok (ipbuf, r1) => .ok (ipString ipbuf, r1)
      else if atyp = 3 then
        match readByte r0 with
        | .error e => .error e
        | .ok (n, r1) =>
          match readFull n r1 with
          | .error e => .error e
          | .ok (hostname, r2) => .ok (goStringOfBytes hostname, r2)
      else if atyp = 4 then
        match readFull 16 r0 with
        | .error e => .error e
        | .ok (ipbuf, r1) => .ok (ipString ipbuf, r1)
      else .ok ("", r0)
    match step1 with
    | .error e => .error e
    | .ok (target, r1) =>
      match readFull 2 r1 with
      | .error e => .error e
      | .ok (portBytes, r2) =>
        .ok (target ++ ":" ++ Nat.repr ((portBytes.getD 0 0) <<< 8 + portBytes.getD 1 0), r2)

/-- Models `net.Addr` as `writeIPAndPort` dispatches on it: a `*net.TCPAddr`,
a `*net.UDPAddr` (each an IP plus a port), or any other address kind. -/
inductive GoAddr where
  | tcp (ip : List Nat) (port : Nat)
  | udp (ip : List Nat) (port : Nat)
  | other
deriving DecidableEq

/-- Models `writeIPAndPort` of `socks5.go`: ATYP 1 plus the 4 bytes when
`To4` succeeds, else ATYP 4 plus the 16 bytes from `To16`, followed by the
two big-endian port bytes (`byte(port >> 8)`, `byte(port & 0xff)`). -/
def writeIPAndPort : GoAddr → Option (List Nat)
  | .other => none
  | .tcp ip port | .udp ip port =>
    match to4 ip with
    | some ipb => some ([1] ++ ipb ++ [(port >>> 8) % 256, port % 256])
    | none =>
      match to16 ip with
      | some ipb => some ([4] ++ ipb ++ [(port >>> 8) % 256, port % 256])
      | none => none

/-- Models `ClientSession.socks5auth`: read the version byte (a read error is
returned; a wrong version returns the *nil* read error without consuming or
writing anything further), then the method count, discard that many method
bytes, and reply `[5, 0]`. Returns the bytes written and the remaining
stream. -/
def socks5auth (input : List Nat) : Except GoError (List Nat × List Nat) :=
  match readByte input with
  | .error e => .error e
  | .ok (b, rest) =>
    if b ≠ 5 then .ok ([], rest)
    else
      match readByte rest with
      | .error e => .error e
      | .ok (n, rest1) =>
        match readFull n rest1 with
        | .error e => .error e
        | .ok (_, rest2) => .ok ([5, 0], rest2)

/-- Models `ClientSession.readRequest`: three header bytes which must be
`[5, cmd ∈ {1,3}, 0]` (anything else is the `invalid request` error), then
the target address. -/
def readRequest (input : List Nat) : Except GoError (Nat × String × List Nat) :=
  match readFull 3 input with
  | .error e => .error e
  | .ok (head, rest) =>
    if head.getD 0 0 = 5 ∧ (head.getD 1 0 = 1 ∨ head.getD 1 0 = 3) ∧ head.getD 2 0 = 0 then
      match readProxyAddress rest with
      | .error e => .error e
      | .ok (addr, rest2) => .ok (head.getD 1 0, addr, rest2)
    else .error (.other "invalid request")

/-- The decision the per-connection goroutine of
`StartProxyClientWithListener` reaches after the handshake phase. -/
inductive SessionOutcome where
  /-- `socks5auth` returned a non-nil error: log and close. -/
  | authError
  /-- `readRequest` returned an error: log and close (nothing written). -/
  | requestFailed
  /-- `case 1`: TCP relay is attempted for the parsed address. -/
  | connectAction (addr : String)
  /-- `case 3`: UDP associate is set up for the parsed address. -/
  | associateAction (addr : String)
  /-- `default`: the 10-byte reject reply is written. -/
  | rejectedUnsupported
deriving DecidableEq

/-- Models the deterministic head of the per-connection goroutine of
`StartProxyClientWithListener`: run `socks5auth`, then `readRequest`, then
dispatch on the command byte. Returns the bytes written to the client up to
that decision, and the decision. -/
def handleSession (input : List Nat) : List Nat × SessionOutcome :=
  match socks5auth input with
  | .error _ => ([], .authError)
  | .ok (w1, rest) =>
    match readRequest rest with
    | .error _ => (w1, .requestFailed)
    | .ok (c, addr, _) =>
      if c = 1 then (w1, .connectAction addr)
      else if c = 3 then (w1, .associateAction addr)
      else (w1 ++ [5, 3, 0, 1, 0, 0, 0, 0, 0, 0], .rejectedUnsupported)

/-- The `request` record of `proxy.go` (gob-encoded on the tunnel). -/
structure FramedRequest where
  method : String
  address : String
deriving DecidableEq

/-- The `response` record of `proxy.go`. -/
structure FramedResponse where
  success : Bool
  payload : String
deriving DecidableEq

/-- What one accepted tunnelled stream observes from `handleProxyServer`:
the single response written, whether application bytes were relayed, and
that the deferred `clientconn.Close()` ran. -/
structure ProxyServeOutcome where
  response : FramedResponse
  relayed : Bool
  closed : Bool
deriving DecidableEq

/-- Models the per-stream goroutine of `handleProxyServer` in `proxy.go`:
a gob decode failure answers `{false, "invaild format"}` and closes; a dial
failure answers `{false, err.Error()}` and closes; a successful dial answers
`{true, localAddr}` and starts the bidirectional copy. `decoded` is the gob
decode result, `dial` the outcome of `net.DialTimeout` (its `Except
String String` carries the dial error string or `remoteConn.LocalAddr()`). -/
def handleProxyConn (decoded : Option FramedRequest)
    (dial : String → String → Except String String) : ProxyServeOutcome :=
  match decoded with
  | none => ⟨⟨false, "invaild format"⟩, false, true⟩
  | some req =>
    match dial req.method req.address with
    | .error e => ⟨⟨false, e⟩, false, true⟩
    | .ok localAddr => ⟨⟨true, localAddr⟩, true, true⟩

/-- The observable fields of `channelWrapper` in `fan/fan.go`: the idle
timestamp, the `isclosed` flag, and the number of `connection.Close()`
calls made so far (modelling the underlying `net.Conn`). Time is a `Nat`. -/
structure ChannelWrapper where
  lastActive : Nat
  isclosed : Bool
  connCloseCount : Nat
deriving DecidableEq

/-- Models `channelWrapper.outdated`:
`lastActive.Add(timeout).Before(now)`, i.e. strictly before. -/
def outdated (c : ChannelWrapper) (timeout now : Nat) : Bool :=
  decide (c.lastActive + timeout < now)

/-- Models `channelWrapper.close`: only when not yet closed, set the flag
and close the underlying connection once. -/
def closeWrapper (c : ChannelWrapper) : ChannelWrapper :=
  if c.isclosed then c
  else { c with isclosed := true, connCloseCount := c.connCloseCount + 1 }

/-- The removal condition of one GC tick in `spawnGCRoutine`:
`conn == nil || conn.isClosed() || conn.outdated(timeout)`. -/
def gcRemovable (conn : Option ChannelWrapper) (timeout now : Nat) : Bool :=
  match conn with
  | none => true
  | some c => c.isclosed || outdated c timeout now

/-- Models one `ticker.C` iteration of `spawnGCRoutine`: scan the map, and
for every removable entry call `conn.close()` on its wrapper when it is not
nil and append its id to `pendingRemove`; then delete the recorded ids from
the map (the map is represented as an association list). The result is the
map after the deletions, paired with the collected wrappers in their
post-`close()` states (the `close()` mutates the shared wrapper object,
which callers of the pool may still hold). -/
def gcTick (m : List (String × Option ChannelWrapper)) (timeout now : Nat) :
    List (String × Option ChannelWrapper) × List (String × ChannelWrapper) :=
  let removable := m.filter (fun p => gcRemovable p.2 timeout now)
  let pendingRemove := removable.map Prod.fst
  (m.filter (fun p => !(pendingRemove.contains p.1)),
   removable.filterMap (fun p => p.2.map (fun c => (p.1, closeWrapper c))))

/-- The quadruple a `fan.Receiver` returns: `(offset, n, senderID, err)`. -/
abbrev RecvOut := Int × Int × String × Option GoError

/-- The observable result of running the `RedirectFanIn` loop for a bounded
number of iterations: either the function returned (with the Go error value
it returned, `none` standing for a nil error), or it is still looping. -/
inductive FanInResult where
  | returned (e : Option GoError)
  | running
deriving DecidableEq

/-- Models the loop of `RedirectFanIn` in `fan/fan.go`. `ctxErr i` is what
`Context.Err()` reports during iteration `i`; `recv i` is what the Receiver
returns when called at iteration `i`; `fuel` bounds how many iterations are
examined. A non-nil receiver error returns it when it is `io.EOF` or
`io.ErrUnexpectedEOF` and otherwise continues; a successful receive hands
the packet to a worker goroutine (not modelled) and continues; once
`Context.Err()` is non-nil the loop stops and that error is returned. -/
def runFanIn (ctxErr : Nat → Option GoError) (recv : Nat → RecvOut) : Nat → Nat → FanInResult
  | _, 0 => .running
  | i, fuel + 1 =>
    match ctxErr i with
    | some e => .returned (some e)
    | none =>
      match (recv i).2.2.2 with
      | some e =>
        if e = .eof ∨ e = .unexpectedEOF then .returned (some e)
        else runFanIn ctxErr recv (i + 1) fuel
      | none => runFanIn ctxErr recv (i + 1) fuel

/-- Models the three `reader.ReadByte()` checks of the UDP ASSOCIATE
Receiver closure in `StartProxyClientWithListener`: each of the first
`k` bytes must be zero (`invalid request` otherwise); running out of bytes
is the reader's `io.EOF`. Returns the remaining bytes. -/
def readZeroBytes : Nat → List Nat → Except GoError (List Nat)
  | 0, rest => .ok rest
  | _ + 1, [] => .error .eof
  | k + 1, b :: rest => if b = 0 then readZeroBytes k rest else .error (.other "invalid request")

/-- Models the body of the UDP ASSOCIATE Receiver closure after a successful
`udpConn.ReadFromUDP` that stored `n` bytes into the pooled buffer `buf`
(the closure parses the whole buffer): check the three leading zero bytes,
parse the destination address, and return
`(len(buf) - reader.Len(), n, addr, nil)`; any parse error is returned as
`(-1, -1, "", err)`. -/
def udpAssociateReceiver (buf : List Nat) (n : Int) : RecvOut :=
  match readZeroBytes 3 buf with
  | .error e => (-1, -1, "", some e)
  | .ok rest =>
    match readProxyAddress rest with
    | .error e => (-1, -1, "", some e)
    | .ok (addr, remaining) => ((buf.length : Int) - (remaining.length : Int), n, addr, none)

theorem readFull_append (l rest : List Nat) : readFull l.length (l ++ rest) = .ok (l, rest) := by
  unfold readFull
  rw [if_pos (by simp)]
  rw [List.take_left, List.drop_left]

theorem readFull_exact (n : Nat) (l rest : List Nat) (h : l.length = n) :
    readFull n (l ++ rest) = .ok (l, rest) := h ▸ readFull_append l rest

theorem portBytes_value (port : Nat) (h : port < 65536) :
    ((port >>> 8) % 256) <<< 8 + port % 256 = port := by
  rw [Nat.shiftRight_eq_div_pow, Nat.shiftLeft_eq]
  norm_num
  omega

/-- Reading an ATYP-1 record: 4 host bytes then the two port bytes. -/
theorem readProxyAddress_ip4 (ipb : List Nat) (h : ipb.length = 4) (p0 p1 : Nat)
    (rest : List Nat) :
    readProxyAddress (1 :: (ipb ++ p0 :: p1 :: rest)) =
      .ok (ipString ipb ++ ":" ++ Nat.repr (p0 <<< 8 + p1), rest) := by
  have h1 : readFull 4 (ipb ++ p0 :: p1 :: rest) = .ok (ipb, p0 :: p1 :: rest) :=
    readFull_exact 4 ipb _ h
  have h2 : readFull 2 (p0 :: p1 :: rest) = .ok ([p0, p1], rest) :=
    readFull_exact 2 [p0, p1] rest rfl
  simp [readProxyAddress, readByte, h1, h2]

/-- Reading an ATYP-4 record: 16 host bytes then the two port bytes. -/
theorem readProxyAddress_ip6 (ipb : List Nat) (h : ipb.length = 16) (p0 p1 : Nat)
    (rest : List Nat) :
    readProxyAddress (4 :: (ipb ++ p0 :: p1 :: rest)) =
      .ok (ipString ipb ++ ":" ++ Nat.repr (p0 <<< 8 + p1), rest) := by
  have h1 : readFull 16 (ipb ++ p0 :: p1 :: rest) = .ok (ipb, p0 :: p1 :: rest) :=
    readFull_exact 16 ipb _ h
  have h2 : readFull 2 (p0 :: p1 :: rest) = .ok ([p0, p1], rest) :=
    readFull_exact 2 [p0, p1] rest rfl
  simp [readProxyAddress, readByte, h1, h2]

/-- An IPv4-in-IPv6 address and its 4-byte form render identically, because
`net.IP.String` dispatches through `To4` first. -/
theorem ipString_mapped (ip : List Nat) (h16 : ip.length = 16)
    (hz : isZeros (ip.take 10) = true) (h10 : ip.getD 10 0 = 255) (h11 : ip.getD 11 0 = 255) :
    ipString ip = ipString (ip.drop 12) := by
  have hto4 : to4 ip = some (ip.drop 12) := by
    unfold to4
    rw [if_neg (by omega), if_pos ⟨h16, hz, h10, h11⟩]
  have hlen4 : (ip.drop 12).length = 4 := by simp [h16]
  have hto4d : to4 (ip.drop 12) = some (ip.drop 12) := by
    unfold to4
    rw [if_pos hlen4]
  have lhs : ipString ip = ipDotted (ip.drop 12) := by
    unfold ipString
    rw [if_neg (show ¬ip.length = 0 by omega), hto4]
  have rhs : ipString (ip.drop 12) = ipDotted (ip.drop 12) := by
    unfold ipString
    rw [if_neg (show ¬(ip.drop 12).length = 0 by omega), hto4d]
  rw [lhs, rhs]

/-- Claim C1: for every IPv4 or IPv6 endpoint (both the `*net.TCPAddr` and
`*net.UDPAddr` shapes) and every port in `[0, 65535]`, feeding the bytes
written by `writeIPAndPort` into `readProxyAddress` succeeds and returns the
endpoint's textual form, a colon, and the port in decimal, leaving any
trailing bytes of the stream untouched. -/
theorem writeRead_roundtrip (ip : List Nat) (port : Nat)
    (hlen : ip.length = 4 ∨ ip.length = 16)
    (hbytes : ∀ b ∈ ip, b < 256) (hport : port < 65536) (rest : List Nat) :
    writeIPAndPort (.udp ip port) = writeIPAndPort (.tcp ip port) ∧
    ∃ out, writeIPAndPort (.tcp ip port) = some out ∧
      readProxyAddress (out ++ rest) = .ok (ipString ip ++ ":" ++ Nat.repr port, rest) := by
  refine ⟨rfl, ?_⟩
  have hp := portBytes_value port hport
  rcases hlen with h4 | h16
  · -- a 4-byte IPv4 address: written as ATYP 1 with the bytes unchanged
    have hto4 : to4 ip = some ip := by
      unfold to4
      rw [if_pos h4]
    refine ⟨[1] ++ ip ++ [(port >>> 8) % 256, port % 256], ?_, ?_⟩
    · simp only [writeIPAndPort]
      rw [hto4]
    · have := readProxyAddress_ip4 ip h4 ((port >>> 8) % 256) (port % 256) rest
      rw [hp] at this
      simpa using this
  · by_cases hmap : isZeros (ip.take 10) = true ∧ ip.getD 10 0 = 255 ∧ ip.getD 11 0 = 255
    · -- an IPv4-in-IPv6 address: written as ATYP 1 with the low 4 bytes
      obtain ⟨hz, h10, h11⟩ := hmap
      have hto4 : to4 ip = some (ip.drop 12) := by
        unfold to4
        rw [if_neg (by omega), if_pos ⟨h16, hz, h10, h11⟩]
      have hlen4 : (ip.drop 12).length = 4 := by simp [h16]
      refine ⟨[1] ++ ip.drop 12 ++ [(port >>> 8) % 256, port % 256], ?_, ?_⟩
      · simp only [writeIPAndPort]
        rw [hto4]
      · have := readProxyAddress_ip4 (ip.drop 12) hlen4 ((port >>> 8) % 256) (port % 256) rest
        rw [hp, ← ipString_mapped ip h16 hz h10 h11] at this
        simpa using this
    · -- a genuine IPv6 address: written as ATYP 4 with the 16 bytes
      have hto4 : to4 ip = none := by
        unfold to4
        rw [if_neg (by omega), if_neg (by tauto)]
      have hto16 : to16 ip = some ip := by
        unfold to16
        rw [if_neg (by omega), if_pos h16]
      refine ⟨[4] ++ ip ++ [(port >>> 8) % 256, port % 256], ?_, ?_⟩
      · simp only [writeIPAndPort]
        rw [hto4, hto16]
      · have := readProxyAddress_ip6 ip h16 ((port >>> 8) % 256) (port % 256) rest
        rw [hp] at this
        simpa using this

theorem writeRead_roundtrip_witness :
    writeIPAndPort (.udp [127, 0, 0, 1] 80) = writeIPAndPort (.tcp [127, 0, 0, 1] 80) ∧
    ∃ out, writeIPAndPort (.tcp [127, 0, 0, 1] 80) = some out ∧
      readProxyAddress (out ++ []) = .ok (ipString [127, 0, 0, 1] ++ ":" ++ Nat.repr 80, []) :=
  writeRead_roundtrip [127, 0, 0, 1] 80 (Or.inl rfl) (by decide) (by decide) []

/-- Claim C8: on a stream whose ATYP byte is none of 1, 3, 4,
`readProxyAddress` consumes exactly the ATYP byte and the two port bytes,
reports no error, and returns the empty host, a colon, and the big-endian
16-bit port in decimal. -/
theorem unknownAtyp_empty_host (atyp p0 p1 : Nat) (rest : List Nat)
    (h1 : atyp ≠ 1) (h3 : atyp ≠ 3) (h4 : atyp ≠ 4)
    (hp0 : p0 < 256) (hp1 : p1 < 256) :
    readProxyAddress (atyp :: p0 :: p1 :: rest) = .ok (":" ++ Nat.repr (p0 * 256 + p1), rest) := by
  have h2 : readFull 2 (p0 :: p1 :: rest) = .ok ([p0, p1], rest) :=
    readFull_exact 2 [p0, p1] rest rfl
  have hv : p0 <<< 8 + p1 = p0 * 256 + p1 := by
    rw [Nat.shiftLeft_eq]
  simp [readProxyAddress, readByte, h1, h3, h4, h2, hv]

theorem unknownAtyp_empty_host_witness :
    readProxyAddress [2, 0, 80, 42] = .ok (":" ++ Nat.repr (0 * 256 + 80), [42]) :=
  unknownAtyp_empty_host 2 0 80 [42] (by decide) (by decide) (by decide) (by decide) (by decide)

/-- Whenever `readRequest` succeeds, the command byte is 1 or 3, so the
`default` branch of the dispatch in `StartProxyClientWithListener` (the one
that writes the 10-byte reject) is unreachable. -/
theorem readRequest_cmd_mem (input : List Nat) (c : Nat) (addr : String) (rest : List Nat)
    (h : readRequest input = .ok (c, addr, rest)) : c = 1 ∨ c = 3 := by
  unfold readRequest at h
  split at h
  · cases h
  · split at h
    · rename_i hc
      split at h
      · cases h
      · cases h
        exact hc.2.1
    · cases h

/-- Claim C2 (what the code actually does): a BIND request (`05 02 00 …`)
after a well-formed greeting makes `readRequest` fail with the
`invalid request` error, so the session closes having written only the
method-select reply `[5, 0]` — the 10-byte reject `05 03 00 01 00 …` is
never sent, because the `default: rejectRequest()` branch sits behind a
`readRequest` that already rejected every command outside {1, 3}. -/
theorem bindRequest_closes_without_reject :
    readRequest [5, 2, 0, 1, 0, 0, 0, 0, 0, 80] = .error (.other "invalid request") ∧
    handleSession [5, 1, 0, 5, 2, 0, 1, 0, 0, 0, 0, 0, 80] = ([5, 0], .requestFailed) := by
  constructor
  · rfl
  · decide

/-- Claim C3 (what the code actually does): when the greeting byte is not 5,
`socks5auth` returns Go's *nil* read error, so the session is not closed:
`readRequest` still runs on the following bytes, and a well-formed request
there is parsed and acted upon. On the input below (greeting byte 6 followed
by a CONNECT request) the session reaches the TCP relay step for
`127.0.0.1:80` instead of closing silently. -/
theorem badVersion_still_parses_request :
    handleSession [6, 5, 1, 0, 1, 127, 0, 0, 1, 0, 80] =
      ([], .connectAction "127.0.0.1:80") := by
  decide

/-- Claim C7: on the endpoint side, a gob decode failure answers exactly
`{success: false, payload: "invaild format"}` and closes the stream without
relaying, and a dial failure answers exactly `{success: false, payload: the
dial error string}` and closes the stream without relaying. -/
theorem proxyServer_failure_paths (dial : String → String → Except String String) :
    handleProxyConn none dial = ⟨⟨false, "invaild format"⟩, false, true⟩ ∧
    (∀ req e, dial req.method req.address = .error e →
      handleProxyConn (some req) dial = ⟨⟨false, e⟩, false, true⟩) := by
  refine ⟨rfl, ?_⟩
  intro req e h
  simp only [handleProxyConn, h]

theorem proxyServer_failure_paths_witness :
    handleProxyConn (some ⟨"tcp", "10.0.0.9:81"⟩) (fun _ _ => .error "connection refused") =
      ⟨⟨false, "connection refused"⟩, false, true⟩ :=
  (proxyServer_failure_paths (fun _ _ => .error "connection refused")).2
    ⟨"tcp", "10.0.0.9:81"⟩ "connection refused" rfl

theorem closeWrapper_isclosed (c : ChannelWrapper) : (closeWrapper c).isclosed = true := by
  unfold closeWrapper
  by_cases hc : c.isclosed
  · rw [if_pos hc]
    exact hc
  · rw [if_neg hc]

theorem closeWrapper_fixed (c : ChannelWrapper) :
    closeWrapper (closeWrapper c) = closeWrapper c := by
  conv_lhs => rw [closeWrapper]
  rw [if_pos (closeWrapper_isclosed c)]

/-- Claim C9: `close()` is idempotent — iterating it any positive number of
times equals a single call, the `isclosed` flag is then true and stays true,
and the underlying connection's `Close()` has run at most once more than
before. -/
theorem wrapper_close_idempotent (c : ChannelWrapper) (n : Nat) (h : 1 ≤ n) :
    closeWrapper^[n] c = closeWrapper c ∧
    (closeWrapper^[n] c).isclosed = true ∧
    (closeWrapper^[n] c).connCloseCount ≤ c.connCloseCount + 1 := by
  obtain ⟨m, rfl⟩ : ∃ m, n = m + 1 := ⟨n - 1, by omega⟩
  have hit : closeWrapper^[m + 1] c = closeWrapper c := by
    rw [Function.iterate_succ_apply, Function.iterate_fixed (closeWrapper_fixed c) m]
  refine ⟨hit, ?_, ?_⟩
  · rw [hit]
    exact closeWrapper_isclosed c
  · rw [hit]
    unfold closeWrapper
    by_cases hc : c.isclosed
    · rw [if_pos hc]
      exact Nat.le_succ _
    · rw [if_neg hc]

theorem wrapper_close_idempotent_witness :
    closeWrapper^[3] ⟨7, false, 0⟩ = closeWrapper ⟨7, false, 0⟩ ∧
    (closeWrapper^[3] (⟨7, false, 0⟩ : ChannelWrapper)).isclosed = true ∧
    (closeWrapper^[3] (⟨7, false, 0⟩ : ChannelWrapper)).connCloseCount ≤ 0 + 1 :=
  wrapper_close_idempotent ⟨7, false, 0⟩ 3 (by decide)

/-- In an association list whose keys are distinct, a key determines its
value. -/
theorem assoc_nodup_unique {β : Type} (m : List (String × β))
    (hnd : (m.map Prod.fst).Nodup) (a : String) (b b' : β)
    (h : (a, b) ∈ m) (h' : (a, b') ∈ m) : b = b' := by
  induction m with
  | nil => cases h
  | cons x t ih =>
    rw [List.map_cons, List.nodup_cons] at hnd
    rcases List.mem_cons.mp h with hx | ht
    · rcases List.mem_cons.mp h' with hx' | ht'
      · exact (Prod.ext_iff.mp (hx.trans hx'.symm)).2
      · refine absurd ?_ hnd.1
        rw [← hx]
        exact List.mem_map.mpr ⟨(a, b'), ht', rfl⟩
    · rcases List.mem_cons.mp h' with hx' | ht'
      · refine absurd ?_ hnd.1
        rw [← hx']
        exact List.mem_map.mpr ⟨(a, b), ht, rfl⟩
      · exact ih hnd.2 ht ht'

/-- Membership after one GC tick, for a map with distinct ids: an entry
survives the tick exactly when the removal condition
`conn == nil || conn.isClosed() || conn.outdated(timeout)` is false. -/
theorem gcTick_mem_aux (m : List (String × Option ChannelWrapper)) (timeout now : Nat)
    (id : String) (c : Option ChannelWrapper)
    (hnd : (m.map Prod.fst).Nodup) (hmem : (id, c) ∈ m) :
    ((id, c) ∈ (gcTick m timeout now).1 ↔ gcRemovable c timeout now = false) := by
  unfold gcTick
  constructor
  · intro hin
    have hp := (List.mem_filter.mp hin).2
    by_contra hne
    have hr : gcRemovable c timeout now = true := by
      cases hg : gcRemovable c timeout now
      · exact absurd hg hne
      · rfl
    have hidmem : id ∈ (List.filter (fun p => gcRemovable p.2 timeout now) m).map Prod.fst :=
      List.mem_map_of_mem Prod.fst (List.mem_filter.mpr ⟨hmem, hr⟩)
    rw [Bool.not_eq_true'] at hp
    have hcon : (List.map Prod.fst
        (List.filter (fun p => gcRemovable p.2 timeout now) m)).contains id = true :=
      List.elem_iff.mpr hidmem
    rw [hp] at hcon
    cases hcon
  · intro hfalse
    refine List.mem_filter.mpr ⟨hmem, ?_⟩
    rw [Bool.not_eq_true']
    cases hcon : (List.map Prod.fst
        (List.filter (fun p => gcRemovable p.2 timeout now) m)).contains (id, c).1
    · rfl
    · exfalso
      have hid : id ∈ (List.filter (fun p => gcRemovable p.2 timeout now) m).map Prod.fst :=
        List.elem_iff.mp hcon
      obtain ⟨p, hpmem, hpfst⟩ := List.mem_map.mp hid
      obtain ⟨hpm, hpr⟩ := List.mem_filter.mp hpmem
      obtain ⟨pid, pc⟩ := p
      have hpid : pid = id := hpfst
      subst hpid
      have hpc : pc = c := assoc_nodup_unique m hnd pid pc c hpm hmem
      rw [hpc, hfalse] at hpr
      cases hpr

/-- Every entry the GC tick collects and whose wrapper is not nil shows up
in the tick's closed-wrapper output, with `close()` applied to it. -/
theorem gcTick_closed_mem (m : List (String × Option ChannelWrapper)) (timeout now : Nat)
    (id : String) (w : ChannelWrapper)
    (hmem : (id, some w) ∈ m) (hrem : gcRemovable (some w) timeout now = true) :
    (id, closeWrapper w) ∈ (gcTick m timeout now).2 := by
  refine List.mem_filterMap.mpr ⟨(id, some w), List.mem_filter.mpr ⟨hmem, hrem⟩, rfl⟩

/-- A single `close()` increases the underlying `Close()` count by at most
one. -/
theorem closeWrapper_count (c : ChannelWrapper) :
    (closeWrapper c).connCloseCount ≤ c.connCloseCount + 1 := by
  unfold closeWrapper
  by_cases hc : c.isclosed
  · rw [if_pos hc]
    exact Nat.le_succ _
  · rw [if_neg hc]

/-- Claim C4 counterexample: a live wrapper whose idle time equals `Timeout`
exactly (`lastActive = 0`, `Timeout = 5`, `now = 5`, so
`now − lastActive = Timeout`) is NOT collected by the GC tick — it stays in
the map and nothing is closed — because `outdated` uses
`lastActive.Add(timeout).Before(now)`, a strict comparison. -/
theorem gc_boundary_survives :
    (gcTick [("peer", some ⟨0, false, 0⟩)] 5 5).1 = [("peer", some ⟨0, false, 0⟩)] ∧
    (gcTick [("peer", some ⟨0, false, 0⟩)] 5 5).2 = [] ∧
    outdated ⟨0, false, 0⟩ 5 5 = false := by
  decide

/-- Claim C4 (amended): during a GC tick over a map with distinct ids,
(1) an entry survives in the map exactly when it holds a wrapper that is not
closed and whose idle time does not STRICTLY exceed the timeout
(`now ≤ lastActive + timeout` — so idle time exactly equal to `Timeout`
survives that tick), and (2) every collected wrapper — already closed or
strictly outdated — has `close()` called on it: it appears in the tick's
closed output with its `isclosed` flag true and the underlying `Close()`
invoked at most once more. -/
theorem gcTick_closes_and_removes (m : List (String × Option ChannelWrapper))
    (timeout now : Nat) (id : String) (c : Option ChannelWrapper)
    (hnd : (m.map Prod.fst).Nodup) (hmem : (id, c) ∈ m) :
    ((id, c) ∈ (gcTick m timeout now).1 ↔
      ∃ w, c = some w ∧ w.isclosed = false ∧ now ≤ w.lastActive + timeout) ∧
    (∀ w, c = some w → (w.isclosed = true ∨ w.lastActive + timeout < now) →
      (id, closeWrapper w) ∈ (gcTick m timeout now).2 ∧
        (closeWrapper w).isclosed = true ∧
        (closeWrapper w).connCloseCount ≤ w.connCloseCount + 1) := by
  constructor
  · rw [gcTick_mem_aux m timeout now id c hnd hmem]
    cases c with
    | none => simp [gcRemovable]
    | some w =>
      simp only [gcRemovable, Bool.or_eq_false_iff, outdated, decide_eq_false_iff_not,
        Option.some.injEq]
      constructor
      · intro ⟨h1, h2⟩
        exact ⟨w, rfl, h1, by omega⟩
      · intro ⟨w', hw, h1, h2⟩
        cases hw
        exact ⟨h1, by omega⟩
  · intro w hw hcond
    cases hw
    have hrem : gcRemovable (some w) timeout now = true := by
      simp only [gcRemovable, outdated, Bool.or_eq_true, decide_eq_true_eq]
      rcases hcond with h | h
      · exact Or.inl h
      · exact Or.inr h
    exact ⟨gcTick_closed_mem m timeout now id w hmem hrem,
      closeWrapper_isclosed w, closeWrapper_count w⟩

theorem gcTick_closes_and_removes_witness :
    ((("peer", some (⟨0, false, 0⟩ : ChannelWrapper)) ∈
        (gcTick [("peer", some ⟨0, false, 0⟩)] 5 6).1 ↔
      ∃ w, some (⟨0, false, 0⟩ : ChannelWrapper) = some w ∧
        w.isclosed = false ∧ 6 ≤ w.lastActive + 5) ∧
    (∀ w, some (⟨0, false, 0⟩ : ChannelWrapper) = some w →
      (w.isclosed = true ∨ w.lastActive + 5 < 6) →
      ("peer", closeWrapper w) ∈ (gcTick [("peer", some ⟨0, false, 0⟩)] 5 6).2 ∧
        (closeWrapper w).isclosed = true ∧
        (closeWrapper w).connCloseCount ≤ w.connCloseCount + 1)) :=
  gcTick_closes_and_removes [("peer", some ⟨0, false, 0⟩)] 5 6 "peer"
    (some ⟨0, false, 0⟩) (by decide) (by decide)

/-- Claim C6: the loop of `RedirectFanIn` (a) returns the Receiver's error
when it is `io.EOF` or `io.ErrUnexpectedEOF`, (b) continues with the next
iteration on any other Receiver error, (c) stops iterating and returns the
context's error once the context is done, and (d) if the context never
becomes done and the Receiver never reports `io.EOF` or
`io.ErrUnexpectedEOF`, the loop runs forever — so the call runs until
context cancellation or Receiver end-of-input. -/
theorem redirectFanIn_error_policy (ctxErr : Nat → Option GoError)
    (recv : Nat → RecvOut) (i fuel : Nat) :
    (∀ e, ctxErr i = none → (recv i).2.2.2 = some e → (e = .eof ∨ e = .unexpectedEOF) →
      runFanIn ctxErr recv i (fuel + 1) = .returned (some e)) ∧
    (∀ e, ctxErr i = none → (recv i).2.2.2 = some e →
      ¬(e = .eof ∨ e = .unexpectedEOF) →
      runFanIn ctxErr recv i (fuel + 1) = runFanIn ctxErr recv (i + 1) fuel) ∧
    (∀ e, ctxErr i = some e → runFanIn ctxErr recv i (fuel + 1) = .returned (some e)) ∧
    ((∀ j, ctxErr j = none) →
      (∀ j e, (recv j).2.2.2 = some e → ¬(e = .eof ∨ e = .unexpectedEOF)) →
      runFanIn ctxErr recv i fuel = .running) := by
  refine ⟨?_, ?_, ?_, ?_⟩
  · intro e hctx hrecv heof
    simp [runFanIn, hctx, hrecv, heof]
  · intro e hctx hrecv heof
    simp [runFanIn, hctx, hrecv, heof]
  · intro e hctx
    simp [runFanIn, hctx]
  · intro hctx hrecv
    induction fuel generalizing i with
    | zero => rfl
    | succ k ih =>
      cases hr : (recv i).2.2.2 with
      | none =>
        have hred : runFanIn ctxErr recv i (k + 1) = runFanIn ctxErr recv (i + 1) k := by
          simp only [runFanIn, hctx i, hr]
        rw [hred]
        exact ih (i + 1)
      | some e =>
        have hred : runFanIn ctxErr recv i (k + 1) = runFanIn ctxErr recv (i + 1) k := by
          simp only [runFanIn, hctx i, hr, if_neg (hrecv i e hr)]
        rw [hred]
        exact ih (i + 1)

theorem redirectFanIn_error_policy_witness :
    runFanIn (fun _ => none) (fun _ => (0, 1, "peer", some .eof)) 0 1 =
      .returned (some .eof) :=
  (redirectFanIn_error_policy (fun _ => none) (fun _ => (0, 1, "peer", some .eof)) 0 0).1
    .eof rfl rfl (Or.inl rfl)

/-- Claim C10: the loop of `RedirectFanIn` never returns a nil error: every
run either is still looping, or has returned a non-nil error that is the
Receiver's `io.EOF` / `io.ErrUnexpectedEOF`, or a context error observed
while the context was done. -/
theorem redirectFanIn_never_nil (ctxErr : Nat → Option GoError)
    (recv : Nat → RecvOut) (i fuel : Nat) :
    runFanIn ctxErr recv i fuel = .running ∨
    ∃ e, runFanIn ctxErr recv i fuel = .returned (some e) ∧
      ((∃ j, (recv j).2.2.2 = some e ∧ (e = .eof ∨ e = .unexpectedEOF)) ∨
        ∃ j, ctxErr j = some e) := by
  induction fuel generalizing i with
  | zero => exact Or.inl rfl
  | succ k ih =>
    cases hctx : ctxErr i with
    | some e =>
      refine Or.inr ⟨e, ?_, Or.inr ⟨i, hctx⟩⟩
      simp only [runFanIn, hctx]
    | none =>
      cases hr : (recv i).2.2.2 with
      | none =>
        have hred : runFanIn ctxErr recv i (k + 1) = runFanIn ctxErr recv (i + 1) k := by
          simp only [runFanIn, hctx, hr]
        rw [hred]
        exact ih (i + 1)
      | some e =>
        by_cases he : e = GoError.eof ∨ e = GoError.unexpectedEOF
        · refine Or.inr ⟨e, ?_, Or.inl ⟨i, hr, he⟩⟩
          simp only [runFanIn, hctx, hr, if_pos he]
        · have hred : runFanIn ctxErr recv i (k + 1) = runFanIn ctxErr recv (i + 1) k := by
            simp only [runFanIn, hctx, hr, if_neg he]
          rw [hred]
          exact ih (i + 1)

/-- Claim C5 counterexample: a datagram whose first three bytes are
`[1, 0, 0]` (RSV/FRAG validation failure) does NOT abort the association.
The Receiver reports the non-EOF error `invalid request`, and the
`RedirectFanIn` loop continues: in the run below it goes on to consume the
NEXT receive (iteration 1, which ends with `io.EOF`) instead of stopping at
the invalid datagram of iteration 0. -/
theorem invalid_datagram_continues_loop :
    udpAssociateReceiver [1, 0, 0] 3 = (-1, -1, "", some (.other "invalid request")) ∧
    runFanIn (fun _ => none)
      (fun i => if i = 0 then udpAssociateReceiver [1, 0, 0] 3 else (-1, -1, "", some .eof))
      0 2 = .returned (some .eof) := by
  constructor
  · rfl
  · decide

/-- Claim C5 (amended): a datagram on the UDP ASSOCIATE socket whose first
three bytes are not all zero yields the per-packet Receiver error
`invalid request`, and `RedirectFanIn` treats it as transient: with the
context still live, the loop proceeds to the next iteration rather than
terminating the association. -/
theorem invalid_datagram_transient (b0 b1 b2 : Nat) (tail : List Nat)
    (hnz : ¬(b0 = 0 ∧ b1 = 0 ∧ b2 = 0)) (n : Int)
    (ctxErr : Nat → Option GoError) (recv : Nat → RecvOut) (i fuel : Nat)
    (hctx : ctxErr i = none)
    (hrecv : recv i = udpAssociateReceiver (b0 :: b1 :: b2 :: tail) n) :
    udpAssociateReceiver (b0 :: b1 :: b2 :: tail) n =
      (-1, -1, "", some (.other "invalid request")) ∧
    runFanIn ctxErr recv i (fuel + 1) = runFanIn ctxErr recv (i + 1) fuel := by
  have hz : readZeroBytes 3 (b0 :: b1 :: b2 :: tail) = .error (.other "invalid request") := by
    by_cases h0 : b0 = 0
    · by_cases h1 : b1 = 0
      · by_cases h2 : b2 = 0
        · exact absurd ⟨h0, h1, h2⟩ hnz
        · simp [readZeroBytes, h0, h1, h2]
      · simp [readZeroBytes, h0, h1]
    · simp [readZeroBytes, h0]
  have hur : udpAssociateReceiver (b0 :: b1 :: b2 :: tail) n =
      (-1, -1, "", some (.other "invalid request")) := by
    unfold udpAssociateReceiver
    rw [hz]
  refine ⟨hur, ?_⟩
  have hr : (recv i).2.2.2 = some (GoError.other "invalid request") := by
    rw [hrecv, hur]
  simp [runFanIn, hctx, hr]

theorem invalid_datagram_transient_witness :
    udpAssociateReceiver [1, 0, 0] 0 = (-1, -1, "", some (.other "invalid request")) ∧
    runFanIn (fun _ => none) (fun _ => udpAssociateReceiver [1, 0, 0] 0) 0 1 =
      runFanIn (fun _ => none) (fun _ => udpAssociateReceiver [1, 0, 0] 0) 1 0 :=
  invalid_datagram_transient 1 0 0 [] (by decide) 0 (fun _ => none)
    (fun _ => udpAssociateReceiver [1, 0, 0] 0) 0 0 rfl rfl

end Clover
